import Mathlib

/-!
Verification development for the WhatsApp/assistant relay service.

The definitions below are a shallow embedding of the JavaScript sources:

* `src/models/Conversation.js` (Conversation.updateConfig, the Message model
  and its createTextMessage / createMediaMessage / createBotMessage helpers),
* `src/services/whatsapp.js` (WhatsAppService: processWebhook,
  handleMessageEvent, processTextMessage, processMediaMessage,
  processLocationMessage, processContactMessage, sendTextMessage,
  sendMediaMessage; OpenAIService: waitForRun, getLastAssistantMessage,
  processConversation),
* `src/api/controllers/whatsapp.js` (verifyWebhook, processMessageWithAI).

Remote services (the WhatsApp REST API, the OpenAI assistant API) and the
MySQL store are external collaborators; they are modelled as explicit
oracles/state so that the control flow of the embedded functions is exactly
that of the source.  JavaScript objects with string keys are modelled as
association lists, object spread `\x7b...a, ...b\x7d` as `jsMerge`, and the
JavaScript truthiness of optional strings as `jsTruthyStr` / `jsOr`.
-/

/-- JavaScript truthiness test for an optional string: `undefined`, `null`
and the empty string are falsy. -/
def jsTruthyStr : Option String → Bool
  | none => false
  | some s => !(s == "")

/-- JavaScript `x || d` for an optional string `x` and a string default `d`:
the default is used when `x` is absent or empty. -/
def jsOr (o : Option String) (d : String) : String :=
  match o with
  | some s => if s == "" then d else s
  | none => d

/-- JavaScript `x || null` for an optional string: an empty string collapses
to `null`. -/
def jsOrNull (o : Option String) : Option String :=
  match o with
  | some s => if s == "" then none else some s
  | none => o

/-- One entry of the result of a JavaScript object spread: a key of the old
object keeps its position, and takes the incoming value when the incoming
object also binds that key. -/
def jsMergeEntry {β : Type} (incoming : List (String × β)) (kv : String × β) :
    String × β :=
  match incoming.lookup kv.1 with
  | some v => (kv.1, v)
  | none => kv

/-- JavaScript object spread `\x7b...old, ...incoming\x7d` on string-keyed
objects modelled as association lists: keys of `old` keep their position
(with values overridden by `incoming` where both bind the key), followed by
the keys only `incoming` binds, in their order. -/
def jsMerge {β : Type} (old incoming : List (String × β)) :
    List (String × β) :=
  old.map (jsMergeEntry incoming) ++
    incoming.filter (fun kv => (old.lookup kv.1).isNone)

/-- `Conversation.updateConfig` merge step from `src/models/Conversation.js`:
`this.config = \x7b ...this.config, ...configData \x7d` (the subsequent SQL
UPDATE persists exactly this merged object). -/
def updateConfig {β : Type} (config configData : List (String × β)) :
    List (String × β) :=
  jsMerge config configData

theorem lookup_append {β : Type} (l₁ l₂ : List (String × β)) (k : String) :
    (l₁ ++ l₂).lookup k = (l₁.lookup k).or (l₂.lookup k) := by
  induction l₁ with
  | nil => simp
  | cons a t ih =>
    rcases a with ⟨k₁, v₁⟩
    rw [List.cons_append, List.lookup_cons, List.lookup_cons]
    cases h : (k == k₁) with
    | true => simp
    | false => simpa using ih

theorem lookup_map_jsMergeEntry {β : Type} (old incoming : List (String × β))
    (k : String) :
    (old.map (jsMergeEntry incoming)).lookup k =
      (old.lookup k).map (fun w => (incoming.lookup k).getD w) := by
  induction old with
  | nil => simp
  | cons a t ih =>
    rcases a with ⟨k₁, v₁⟩
    by_cases hkk : k = k₁
    · subst hkk
      cases hl : incoming.lookup k with
      | none => simp [jsMergeEntry, hl, List.lookup_cons]
      | some v => simp [jsMergeEntry, hl, List.lookup_cons]
    · have hbeq : (k == k₁) = false := by simpa using hkk
      cases hl : incoming.lookup k₁ with
      | none => simp [jsMergeEntry, hl, List.lookup_cons, hbeq, ih]
      | some v => simp [jsMergeEntry, hl, List.lookup_cons, hbeq, ih]

theorem lookup_filter_isNone {β : Type} (old incoming : List (String × β))
    (k : String) :
    (incoming.filter (fun kv => (old.lookup kv.1).isNone)).lookup k =
      if (old.lookup k).isNone then incoming.lookup k else none := by
  induction incoming with
  | nil => simp
  | cons a t ih =>
    rcases a with ⟨k₁, v₁⟩
    rw [List.lookup_cons]
    cases hp : ((old.lookup k₁).isNone) with
    | true =>
      rw [List.filter_cons_of_pos (by simpa using hp), List.lookup_cons]
      cases h : (k == k₁) with
      | true =>
        have hkk : k = k₁ := by simpa using h
        subst hkk
        simp [hp]
      | false => simpa [h] using ih
    | false =>
      rw [List.filter_cons_of_neg (by simpa using hp)]
      cases h : (k == k₁) with
      | true =>
        have hkk : k = k₁ := by simpa using h
        subst hkk
        rw [ih]
        simp [hp]
      | false => simpa [h] using ih

theorem jsMerge_lookup {β : Type} (old incoming : List (String × β))
    (k : String) :
    (jsMerge old incoming).lookup k =
      (incoming.lookup k).or (old.lookup k) := by
  unfold jsMerge
  rw [lookup_append, lookup_map_jsMergeEntry, lookup_filter_isNone]
  cases ho : old.lookup k with
  | none =>
    cases hi : incoming.lookup k <;> simp
  | some w =>
    cases hi : incoming.lookup k <;> simp

/-- C3: a config update is a shallow merge: keys absent from the incoming
partial config are preserved with their existing values; merging is
associative on the resulting key lookups; and the concrete example of the
specification holds on the nose: merging the singleton a-config and then the
singleton b-config into an empty config produces the same two-key object as
merging the combined config once. -/
theorem updateConfig_shallow_merge_assoc :
    (∀ (β : Type) (old incoming : List (String × β)) (k : String),
        incoming.lookup k = none →
        (updateConfig old incoming).lookup k = old.lookup k)
    ∧ (∀ (β : Type) (c p₁ p₂ : List (String × β)) (k : String),
        (updateConfig (updateConfig c p₁) p₂).lookup k =
          (updateConfig c (updateConfig p₁ p₂)).lookup k)
    ∧ updateConfig (updateConfig ([] : List (String × Nat)) [("a", 1)])
        [("b", 2)] = [("a", 1), ("b", 2)]
    ∧ updateConfig ([] : List (String × Nat)) [("a", 1), ("b", 2)] =
        [("a", 1), ("b", 2)] := by
  refine ⟨?_, ?_, by decide, by decide⟩
  · intro β old incoming k h
    unfold updateConfig
    rw [jsMerge_lookup, h, Option.none_or]
  · intro β c p₁ p₂ k
    unfold updateConfig
    rw [jsMerge_lookup, jsMerge_lookup, jsMerge_lookup, jsMerge_lookup,
      Option.or_assoc]

/-- Witness for `updateConfig_shallow_merge_assoc` at concrete inputs. -/
theorem updateConfig_shallow_merge_assoc_witness :
    (updateConfig [("x", 7)] [("y", 9)]).lookup "x" =
      ([("x", 7)] : List (String × Nat)).lookup "x" :=
  updateConfig_shallow_merge_assoc.1 Nat [("x", 7)] [("y", 9)] "x" rfl

/-- Outcome of the `GET /webhook` verification handshake of
`src/api/controllers/whatsapp.js`: a 200 response carrying the challenge, a
403, or a 400. -/
inductive VerifyResult where
  | ok (body : Option String)
  | forbidden
  | badRequest
deriving DecidableEq

/-- `verifyWebhook` from `src/api/controllers/whatsapp.js`: reads
`hub.mode`, `hub.verify_token` and `hub.challenge` from the query; when mode
and token are both truthy, answers 200 with the challenge body when the mode
is subscribe and the token equals the configured secret, else 403; when mode
or token is missing or empty, answers 400. -/
def verifyWebhook (verifyToken : String)
    (mode token challenge : Option String) : VerifyResult :=
  if jsTruthyStr mode && jsTruthyStr token then
    if mode == some "subscribe" && token == some verifyToken then
      .ok challenge
    else
      .forbidden
  else
    .badRequest

/-- C6: for every combination of query parameters, the verification
handshake returns 200 with the challenge body exactly when the mode is
subscribe and the token matches the configured (nonempty) secret; it returns
400 whenever the mode or the verify token is missing; and it returns 403 when
both are supplied (truthy) but the subscribe/secret check fails. -/
theorem verifyWebhook_spec (verifyToken : String) (hv : verifyToken ≠ "")
    (mode token challenge : Option String) :
    (verifyWebhook verifyToken mode token challenge = .ok challenge ↔
      (mode = some "subscribe" ∧ token = some verifyToken))
    ∧ (mode = none ∨ token = none →
        verifyWebhook verifyToken mode token challenge = .badRequest)
    ∧ (jsTruthyStr mode = true → jsTruthyStr token = true →
        ¬(mode = some "subscribe" ∧ token = some verifyToken) →
        verifyWebhook verifyToken mode token challenge = .forbidden) := by
  refine ⟨⟨?_, ?_⟩, ?_, ?_⟩
  · intro h
    unfold verifyWebhook at h
    by_cases ht : (jsTruthyStr mode && jsTruthyStr token) = true
    · rw [if_pos ht] at h
      by_cases hc : (mode == some "subscribe" && token == some verifyToken) = true
      · simpa using hc
      · rw [if_neg hc] at h
        simp at h
    · rw [if_neg ht] at h
      simp at h
  · rintro ⟨hm, hk⟩
    subst hm
    subst hk
    unfold verifyWebhook
    have h1 : jsTruthyStr (some "subscribe") = true := by decide
    have h2 : jsTruthyStr (some verifyToken) = true := by
      simp [jsTruthyStr, hv]
    rw [h1, h2]
    simp
  · intro h
    unfold verifyWebhook
    have ht : (jsTruthyStr mode && jsTruthyStr token) = false := by
      rcases h with h | h <;> subst h <;> simp [jsTruthyStr]
    rw [ht]
    simp
  · intro hm ht hne
    unfold verifyWebhook
    rw [hm, ht]
    by_cases h1 : mode = some "subscribe"
    · by_cases h2 : token = some verifyToken
      · exact absurd ⟨h1, h2⟩ hne
      · simp [h1, h2]
    · simp [h1]

/-- Witness for `verifyWebhook_spec`: a subscribe request with the right
token gets its challenge echoed with status 200. -/
theorem verifyWebhook_spec_witness :
    verifyWebhook "secret" (some "subscribe") (some "secret") (some "XYZ") =
      .ok (some "XYZ") :=
  (verifyWebhook_spec "secret" (by decide) (some "subscribe") (some "secret")
    (some "XYZ")).1.2 ⟨rfl, rfl⟩

/-- One content part of an assistant-API message, as inspected by
`processMessageWithAI` (`contentPart.type` and `contentPart.text.value`). -/
structure ContentPart where
  type : String
  text : String
deriving DecidableEq

/-- A message of an assistant-API thread, as returned by the OpenAI client
message list: role, creation time, and content parts. -/
structure ThreadMsg where
  role : String
  created_at : Nat
  content : List ContentPart
deriving DecidableEq

/-- The descending-by-creation-time order used by the comparator
`(a, b) => new Date(b.created_at) - new Date(a.created_at)` in
`getLastAssistantMessage`. -/
def byCreatedAtDesc (a b : ThreadMsg) : Prop :=
  b.created_at ≤ a.created_at

instance : DecidableRel byCreatedAtDesc :=
  fun a b => Nat.decLe b.created_at a.created_at

instance : IsTotal ThreadMsg byCreatedAtDesc :=
  ⟨fun a b => Nat.le_total b.created_at a.created_at⟩

instance : IsTrans ThreadMsg byCreatedAtDesc :=
  ⟨fun _ _ _ h₁ h₂ => Nat.le_trans h₂ h₁⟩

/-- `OpenAIService.getLastAssistantMessage` from `src/services/whatsapp.js`
(openai service part): filter the thread messages to assistant-authored
ones, sort them newest first, and return the head, or null when none
exists.  The JavaScript stable `Array.prototype.sort` is modelled by the
stable `List.insertionSort`. -/
def getLastAssistantMessage (messages : List ThreadMsg) : Option ThreadMsg :=
  ((messages.filter (fun m => m.role == "assistant")).insertionSort
    byCreatedAtDesc).head?

/-- C5: `getLastAssistantMessage` returns null exactly when the thread has
no assistant-authored message, and any message it returns is an
assistant-authored thread message whose creation time is maximal among the
assistant-authored ones. -/
theorem getLastAssistantMessage_spec (messages : List ThreadMsg) :
    (getLastAssistantMessage messages = none ↔
      ∀ m ∈ messages, m.role ≠ "assistant")
    ∧ (∀ m, getLastAssistantMessage messages = some m →
        m ∈ messages ∧ m.role = "assistant" ∧
        ∀ m₂ ∈ messages, m₂.role = "assistant" →
          m₂.created_at ≤ m.created_at) := by
  constructor
  · unfold getLastAssistantMessage
    rw [List.head?_eq_none_iff]
    constructor
    · intro h m hm hrole
      have hmem : m ∈ (messages.filter
          (fun m => m.role == "assistant")).insertionSort byCreatedAtDesc := by
        rw [List.mem_insertionSort, List.mem_filter]
        exact ⟨hm, by simp [hrole]⟩
      rw [h] at hmem
      simp at hmem
    · intro h
      have hfil : messages.filter (fun m => m.role == "assistant") = [] := by
        rw [List.filter_eq_nil_iff]
        intro m hm
        simpa using h m hm
      rw [hfil]
      rfl
  · intro m hm
    unfold getLastAssistantMessage at hm
    set s := (messages.filter (fun m => m.role == "assistant")).insertionSort
      byCreatedAtDesc with hs
    have hmem : m ∈ s := List.mem_of_mem_head? hm
    have hmf : m ∈ messages.filter (fun m => m.role == "assistant") := by
      rw [hs, List.mem_insertionSort] at hmem
      exact hmem
    rw [List.mem_filter] at hmf
    refine ⟨hmf.1, by simpa using hmf.2, ?_⟩
    intro m₂ hm₂ hrole₂
    have hmem₂ : m₂ ∈ s := by
      rw [hs, List.mem_insertionSort, List.mem_filter]
      exact ⟨hm₂, by simp [hrole₂]⟩
    have hsorted : s.Sorted byCreatedAtDesc :=
      List.sorted_insertionSort byCreatedAtDesc _
    cases hcase : s with
    | nil =>
      rw [hcase] at hmem
      simp at hmem
    | cons hd tl =>
      have hhd : hd = m := by
        rw [hcase] at hm
        simpa using hm
      subst hhd
      rw [hcase] at hmem₂ hsorted
      rcases List.mem_cons.mp hmem₂ with h | h
      · subst h
        exact Nat.le_refl _
      · exact List.rel_of_sorted_cons hsorted m₂ h

/-- Witness for `getLastAssistantMessage_spec`: on a thread with a user
message and two assistant messages it returns the assistant message with
the larger creation time. -/
theorem getLastAssistantMessage_spec_witness :
    (⟨"assistant", 7, []⟩ : ThreadMsg) ∈
        [(⟨"user", 9, []⟩ : ThreadMsg), ⟨"assistant", 3, []⟩,
          ⟨"assistant", 7, []⟩] ∧
      (⟨"assistant", 7, []⟩ : ThreadMsg).role = "assistant" ∧
      ∀ m₂ ∈ [(⟨"user", 9, []⟩ : ThreadMsg), ⟨"assistant", 3, []⟩,
          ⟨"assistant", 7, []⟩], m₂.role = "assistant" →
        m₂.created_at ≤ (⟨"assistant", 7, []⟩ : ThreadMsg).created_at :=
  (getLastAssistantMessage_spec
    [⟨"user", 9, []⟩, ⟨"assistant", 3, []⟩, ⟨"assistant", 7, []⟩]).2
    ⟨"assistant", 7, []⟩ (by decide)

/-- The run statuses the polling loop keeps waiting on, the literal list of
`OpenAIService.waitForRun`. -/
def activeStatuses : List String := ["queued", "in_progress", "cancelling"]

/-- Failure of the polling loop: the timeout error thrown by `waitForRun`,
or exhaustion of the iteration fuel of the model (which never happens for
the fuel chosen in `waitForRun`, see `waitForRunGo_timeout`). -/
inductive PollError where
  | timeout
  | fuelExhausted
deriving DecidableEq

/-- The loop of `OpenAIService.waitForRun`.  `getStatus k` is the status the
remote service reports at the k-th `getRunStatus` call; since each loop
iteration sleeps `interval` milliseconds, the elapsed time when the k-th
reported status is inspected is `k * interval`.  While the status is active
the loop throws the timeout error once the elapsed time exceeds `timeout`,
otherwise it sleeps and polls again; a non-active status is returned as a
completed poll. -/
def waitForRunGo (getStatus : Nat → String) (interval timeout : Nat) :
    Nat → Nat → Except PollError String
  | 0, k =>
    if activeStatuses.contains (getStatus k) then
      if k * interval > timeout then .error .timeout
      else .error .fuelExhausted
    else .ok (getStatus k)
  | fuel + 1, k =>
    if activeStatuses.contains (getStatus k) then
      if k * interval > timeout then .error .timeout
      else waitForRunGo getStatus interval timeout fuel (k + 1)
    else .ok (getStatus k)

/-- `OpenAIService.waitForRun` with its default interval (1000 ms) and
timeout (120000 ms): at most `timeout / interval + 1` further polls can
happen before the elapsed-time check fails, so that fuel makes the model
total without cutting any reachable iteration. -/
def waitForRun (getStatus : Nat → String) (interval : Nat := 1000)
    (timeout : Nat := 120000) : Except PollError String :=
  waitForRunGo getStatus interval timeout (timeout / interval + 1) 0

theorem waitForRunGo_timeout (getStatus : Nat → String)
    (interval timeout : Nat)
    (hactive : ∀ j, activeStatuses.contains (getStatus j) = true) :
    ∀ fuel k, (k + fuel) * interval > timeout →
      waitForRunGo getStatus interval timeout fuel k = .error .timeout := by
  intro fuel
  induction fuel with
  | zero =>
    intro k hk
    unfold waitForRunGo
    rw [hactive k, if_pos rfl, if_pos (by simpa using hk)]
  | succ n ih =>
    intro k hk
    unfold waitForRunGo
    rw [hactive k, if_pos rfl]
    by_cases hko : k * interval > timeout
    · rw [if_pos hko]
    · rw [if_neg hko]
      apply ih (k + 1)
      have harr : k + 1 + n = k + (n + 1) := by omega
      rw [harr]
      exact hk

theorem waitForRun_timeout (getStatus : Nat → String)
    (interval timeout : Nat) (hi : 0 < interval)
    (hactive : ∀ j, activeStatuses.contains (getStatus j) = true) :
    waitForRun getStatus interval timeout = .error .timeout := by
  unfold waitForRun
  apply waitForRunGo_timeout getStatus interval timeout hactive
  have h := (Nat.div_lt_iff_lt_mul hi).mp
    (Nat.lt_succ_self (timeout / interval))
  simpa [Nat.succ_eq_add_one, Nat.zero_add] using h

theorem waitForRunGo_first_terminal (getStatus : Nat → String)
    (interval timeout n : Nat)
    (hactive : ∀ j < n, activeStatuses.contains (getStatus j) = true)
    (hterm : activeStatuses.contains (getStatus n) = false)
    (hbudget : ∀ j < n, j * interval ≤ timeout) :
    ∀ fuel k, k ≤ n → n - k ≤ fuel →
      waitForRunGo getStatus interval timeout fuel k = .ok (getStatus n) := by
  intro fuel
  induction fuel with
  | zero =>
    intro k hk hf
    have hkn : k = n := by omega
    subst hkn
    unfold waitForRunGo
    rw [hterm]
    simp
  | succ m ih =>
    intro k hk hf
    by_cases hkn : k = n
    · subst hkn
      unfold waitForRunGo
      rw [hterm]
      simp
    · have hklt : k < n := by omega
      unfold waitForRunGo
      rw [hactive k hklt, if_pos rfl,
        if_neg (by exact Nat.not_lt.mpr (hbudget k hklt))]
      exact ih (k + 1) (by omega) (by omega)

theorem waitForRun_first_terminal (getStatus : Nat → String)
    (interval timeout n : Nat) (hi : 0 < interval)
    (hactive : ∀ j < n, activeStatuses.contains (getStatus j) = true)
    (hterm : activeStatuses.contains (getStatus n) = false)
    (hbudget : ∀ j < n, j * interval ≤ timeout) :
    waitForRun getStatus interval timeout = .ok (getStatus n) := by
  unfold waitForRun
  apply waitForRunGo_first_terminal getStatus interval timeout n hactive hterm
    hbudget _ 0 (Nat.zero_le n)
  rcases Nat.eq_zero_or_pos n with hn | hn
  · subst hn
    exact Nat.zero_le _
  · have hb : (n - 1) * interval ≤ timeout := hbudget (n - 1) (by omega)
    have h2 : n - 1 ≤ timeout / interval := (Nat.le_div_iff_mul_le hi).mpr hb
    generalize timeout / interval = q at h2 ⊢
    omega

/-- Metadata of a webhook message event (`messageEvent.metadata`). -/
structure Metadata where
  phone_number_id : String
deriving DecidableEq

/-- One inbound platform message inside a webhook message event.  `from_`
renders the JavaScript `from` field (a reserved word in Lean); `text` is the
body carried by a present `message.text` object; `mediaId` is the id of the
`message[message.type]` media object (none when that object or its id is
missing, which makes `getMediaInfo` throw); `location` and `contacts` carry
the respective sub-objects opaquely. -/
structure WaMessage where
  from_ : String
  id : String
  type : String
  timestamp : Nat
  text : Option String := none
  mediaId : Option String := none
  location : Option String := none
  contacts : Option String := none
  context_id : Option String := none
deriving DecidableEq

/-- The `change.value` payload handed to `handleMessageEvent`. -/
structure MessageEvent where
  messages : Option (List WaMessage) := none
  metadata : Option Metadata := none
deriving DecidableEq

/-- One change of a webhook entry (`change.field`, `change.value`). -/
structure Change where
  field : String
  value : MessageEvent
deriving DecidableEq

/-- One entry of a webhook envelope. -/
structure Entry where
  changes : List Change
deriving DecidableEq

/-- The webhook envelope; `entry` is the platform entry list, absent in the
malformed case that `processWebhook` rejects as a validation failure. -/
structure Envelope where
  entry : Option (List Entry) := none
deriving DecidableEq

/-- A stored or fetched media record: the shape built by
`processMediaMessage` from the media-info API response, and by
`sendMediaMessage` for the outbound record. -/
structure MediaRecord where
  url : String
  mime_type : String
  filename : Option String := none
  caption : Option String := none
  sha256 : Option String := none
  filesize : Option Nat := none
deriving DecidableEq

/-- The data object passed to the `Message` constructor of
`src/models/Message.js`; every field is optional there. -/
structure MessageData where
  conversation_id : Option String := none
  type : Option String := none
  wa_id : Option String := none
  timestamp : Option Nat := none
  replying_to_mesage_id : Option String := none
  business_phone_number_id : Option String := none
  whatsapp_webhook_data : Option MessageEvent := none
  text : Option String := none
  media : Option MediaRecord := none
  location : Option String := none
  contact : Option String := none
  status : Option String := none
deriving DecidableEq

/-- A persisted message row, with the defaults the `Message` constructor of
`src/models/Message.js` applies (`type` defaults to text, `wa_id` to the
empty string, `status` to pending, payload fields to null).  The generated
UUID and the row timestamps are not modelled. -/
structure MessageRow where
  conversation_id : Option String
  type : String
  wa_id : String
  timestamp : Option Nat
  replying_to_mesage_id : Option String
  business_phone_number_id : Option String
  whatsapp_webhook_data : Option MessageEvent
  text : Option String
  media : Option MediaRecord
  location : Option String
  contact : Option String
  status : String
deriving DecidableEq

/-- The `Message` constructor of `src/models/Message.js` applied to a data
object: `new Message(data)` with its `data.x || default` field defaults. -/
def mkMessage (data : MessageData) : MessageRow :=
  { conversation_id := data.conversation_id
    type := jsOr data.type "text"
    wa_id := jsOr data.wa_id ""
    timestamp := data.timestamp
    replying_to_mesage_id := data.replying_to_mesage_id
    business_phone_number_id := data.business_phone_number_id
    whatsapp_webhook_data := data.whatsapp_webhook_data
    text := jsOrNull data.text
    media := data.media
    location := jsOrNull data.location
    contact := jsOrNull data.contact
    status := jsOr data.status "pending" }

/-- `Message.createMediaMessage` from `src/models/Message.js`: spread the
data object, force `type` to the literal string media, and attach the media
record. -/
def createMediaMessage (data : MessageData) (mediaData : MediaRecord) :
    MessageRow :=
  mkMessage { data with type := some "media", media := some mediaData }

/-- `Message.createBotMessage` from `src/models/Message.js`: spread the data
object and force `type` to bot_answer and `status` to sent. -/
def createBotMessage (data : MessageData) : MessageRow :=
  mkMessage { data with type := some "bot_answer", status := some "sent" }

/-- The outbound text payload built by `WhatsAppService.sendTextMessage`
(the body posted to the platform messages endpoint; the constant
messaging-product and recipient-type fields are omitted). -/
structure TextPayload where
  to_ : String
  type : String
  body : String
deriving DecidableEq

/-- `WhatsAppService.sendTextMessage`: builds the outbound text payload and
records a bot message row whose `wa_id` is the message id the platform API
returned (`apiMessageId`). -/
def sendTextMessage (to_ text phoneNumberId conversationId apiMessageId :
    String) : TextPayload × MessageRow :=
  (⟨to_, "text", text⟩,
    createBotMessage
      { conversation_id := some conversationId
        type := some "bot_answer"
        wa_id := some apiMessageId
        text := some text
        status := some "sent" })

/-- The `mediaData` argument of `WhatsAppService.sendMediaMessage`. -/
structure MediaDataIn where
  type : String
  url : String
  caption : Option String := none
deriving DecidableEq

/-- The outbound media payload built by `WhatsAppService.sendMediaMessage`:
the media sub-object is keyed by the media type and carries the link and the
caption defaulted to the empty string. -/
structure MediaPayload where
  to_ : String
  type : String
  link : String
  caption : String
deriving DecidableEq

/-- `WhatsAppService.sendMediaMessage`: builds the outbound payload with
`caption || ""`, then records the sent message via
`Message.createMediaMessage`, deriving the stored mime type as the media
type joined with pdf for documents and jpeg for everything else. -/
def sendMediaMessage (to_ : String) (mediaData : MediaDataIn)
    (phoneNumberId conversationId apiMessageId : String) :
    MediaPayload × MessageRow :=
  (⟨to_, mediaData.type, mediaData.url, jsOr mediaData.caption ""⟩,
    createMediaMessage
      { conversation_id := some conversationId
        type := some "bot_answer"
        wa_id := some apiMessageId
        status := some "sent" }
      { url := mediaData.url
        mime_type := mediaData.type ++ "/" ++
          (if mediaData.type == "document" then "pdf" else "jpeg")
        caption := some (jsOr mediaData.caption "") })

/-- C8 counterexample: sending a video with no caption stores the mime type
video/jpeg, not image/jpeg as the claim states (the type half of the mime
string is the actual media type; only the subtype is the jpeg default). -/
theorem sendMediaMessage_video_mime_counterexample :
    ((sendMediaMessage "15550001111" ⟨"video", "https://cdn/x.mp4", none⟩
        "phone1" "conv1" "wamid.1").2.media).map (fun m => m.mime_type) =
      some "video/jpeg"
    ∧ (("video/jpeg" == "image/jpeg") = false) := by
  exact ⟨rfl, by decide⟩

/-- C8 as amended: for a video with no caption the outbound payload caption
defaults to the empty string, and the stored record derives its mime type as
video/jpeg: the subtype defaults to jpeg regardless of the actual format,
while the type half reflects the actual media type. -/
theorem sendMediaMessage_video_spec (to_ phoneNumberId conversationId
    apiMessageId url : String) :
    ((sendMediaMessage to_ ⟨"video", url, none⟩ phoneNumberId conversationId
        apiMessageId).1.caption = "")
    ∧ ((sendMediaMessage to_ ⟨"video", url, none⟩ phoneNumberId conversationId
        apiMessageId).2.media).map (fun m => m.mime_type) =
      some "video/jpeg" := by
  exact ⟨rfl, rfl⟩

/-- The message `kind` enum as given in the data model section of the
specification. -/
def specMessageKindEnum : List String :=
  ["text", "image", "document", "audio", "video", "location", "contact",
    "bot_answer"]

/-- C9: `Message.createMediaMessage` always stores the row with type media,
overwriting any type supplied in the data, so every outbound media reply
sent through `sendMediaMessage` (which passes type bot_answer) is recorded
with type media, a value outside the message-kind enum of the
specification. -/
theorem createMediaMessage_overrides_type :
    (∀ data mediaData, (createMediaMessage data mediaData).type = "media")
    ∧ (∀ to_ mediaData phoneNumberId conversationId apiMessageId,
        ((sendMediaMessage to_ mediaData phoneNumberId conversationId
            apiMessageId).2).type = "media")
    ∧ (specMessageKindEnum.contains "media" = false) := by
  refine ⟨fun data mediaData => rfl, fun _ _ _ _ _ => rfl, by decide⟩

/-- A conversation config blob: the open JSON map persisted per
conversation (string values are enough for the thread/run/assistant keys the
orchestration uses). -/
abbrev Config := List (String × String)

/-- The responses of the remote assistant and messaging services during one
orchestration call: the id of a freshly created thread, the id of a freshly
created run, the status reported at each `getRunStatus` poll, the thread
message list fetched after polling, and the message id the messaging
platform returns for the outbound send. -/
structure OrchOracle where
  newThreadId : String
  newRunId : String
  runStatusAt : Nat → String
  threadMessages : List ThreadMsg
  sentWaMessageId : String

/-- Remote calls and persistence steps performed by
`OpenAIService.processConversation`, in order.  `runCancel` is in the
vocabulary to state that no cancellation request is ever issued: the source
has no cancellation call, so the embedding never emits this event. -/
inductive OrchEvent where
  | threadCreate
  | messageAppend (threadId content : String)
  | runCreate (threadId assistantId : String)
  | persistConfig (config : Config)
  | runCancel (threadId runId : String)
deriving DecidableEq

/-- Whether an orchestration event is a cancellation request. -/
def OrchEvent.isRunCancel : OrchEvent → Bool
  | .runCancel _ _ => true
  | _ => false

/-- Whether an orchestration event is a thread-create call. -/
def OrchEvent.isThreadCreate : OrchEvent → Bool
  | .threadCreate => true
  | _ => false

/-- Whether an orchestration event is a message-append call. -/
def OrchEvent.isMessageAppend : OrchEvent → Bool
  | .messageAppend _ _ => true
  | _ => false

/-- Whether an orchestration event is a run-create call. -/
def OrchEvent.isRunCreate : OrchEvent → Bool
  | .runCreate _ _ => true
  | _ => false

/-- Whether an orchestration event is a config persistence. -/
def OrchEvent.isPersistConfig : OrchEvent → Bool
  | .persistConfig _ => true
  | _ => false

/-- Result of one `processConversation` call: the returned value or the
thrown error, together with the conversation config as it stands afterwards
(the conversation object is mutated in place before polling, so the config
survives a thrown poll error) and the ordered remote/persistence events. -/
structure OrchOutcome where
  result : Except PollError (Option ThreadMsg)
  config : Config
  events : List OrchEvent
deriving Inhabited

/-- The tail of `OpenAIService.processConversation` once a thread id is at
hand: append the user message to the thread, start a run scoped to the
config assistant id or the process-wide default, merge the new run id into
the config and persist it, poll the run with the default interval and
timeout, and on a completed poll return the last assistant message. -/
def processConversationCore (o : OrchOracle) (envAssistantId message
    threadId : String) (config : Config) (events : List OrchEvent) :
    OrchOutcome :=
  match waitForRun o.runStatusAt 1000 120000 with
  | .error e =>
    { result := .error e
      config := jsMerge config [("run_id", o.newRunId)]
      events := events ++ [.messageAppend threadId message,
        .runCreate threadId
          (jsOr (config.lookup "assistant_openai_id") envAssistantId),
        .persistConfig (jsMerge config [("run_id", o.newRunId)])] }
  | .ok _ =>
    { result := .ok (getLastAssistantMessage o.threadMessages)
      config := jsMerge config [("run_id", o.newRunId)]
      events := events ++ [.messageAppend threadId message,
        .runCreate threadId
          (jsOr (config.lookup "assistant_openai_id") envAssistantId),
        .persistConfig (jsMerge config [("run_id", o.newRunId)])] }

/-- `OpenAIService.processConversation`: when the conversation config holds
no (truthy) thread id, create a thread, merge its id into the config and
persist it; then run the core request/poll/response cycle. -/
def processConversation (o : OrchOracle) (envAssistantId message : String)
    (convConfig : Config) : OrchOutcome :=
  if jsTruthyStr (convConfig.lookup "thread_id") then
    processConversationCore o envAssistantId message
      ((convConfig.lookup "thread_id").getD "") convConfig []
  else
    processConversationCore o envAssistantId message o.newThreadId
      (jsMerge convConfig [("thread_id", o.newThreadId)])
      [.threadCreate,
        .persistConfig (jsMerge convConfig [("thread_id", o.newThreadId)])]

/-- Failure of `processMessageWithAI` of
`src/api/controllers/whatsapp.js`: the orchestration threw, or the
assistant produced no usable response (the 500 no-response branch). -/
inductive CallerError where
  | orchestration (e : PollError)
  | noAiResponse
deriving DecidableEq

/-- Text extraction of `processMessageWithAI`: concatenate the values of the
text-typed content parts of the assistant response. -/
def extractText (resp : ThreadMsg) : String :=
  resp.content.foldl
    (fun acc part => if part.type == "text" then acc ++ part.text else acc) ""

/-- The tail of `processMessageWithAI` from
`src/api/controllers/whatsapp.js` after the conversation and message
lookups: run the orchestration on the stored message text, fail with the
500 error when it yields no response or an empty content list, otherwise
send the extracted text back over WhatsApp to the conversation contact and
return the recorded bot message row. -/
def processMessageWithAI (o : OrchOracle) (envAssistantId waId
    conversationId phoneNumberId messageText : String)
    (convConfig : Config) : Except CallerError MessageRow :=
  match (processConversation o envAssistantId messageText convConfig).result with
  | .error e => .error (.orchestration e)
  | .ok none => .error .noAiResponse
  | .ok (some resp) =>
    if resp.content.isEmpty then .error .noAiResponse
    else
      .ok (sendTextMessage waId (extractText resp) phoneNumberId
        conversationId o.sentWaMessageId).2

/-- C1: processing a conversation whose config holds no thread id performs
exactly one thread-create, one message-append and one run-create call,
merges and persists the config exactly twice (first with the new thread id,
then with the new run id), stops polling at the first reported status
outside the active set, and the caller then sends the extracted reply and
records a bot_answer message row with status sent. -/
theorem processConversation_fresh_thread_spec (o : OrchOracle)
    (envAssistantId waId conversationId phoneNumberId messageText : String)
    (convConfig : Config)
    (hthread : convConfig.lookup "thread_id" = none ∨
      convConfig.lookup "thread_id" = some "")
    (n : Nat)
    (hactive : ∀ j < n, activeStatuses.contains (o.runStatusAt j) = true)
    (hterm : activeStatuses.contains (o.runStatusAt n) = false)
    (hbudget : ∀ j < n, j * 1000 ≤ 120000)
    (resp : ThreadMsg)
    (hresp : getLastAssistantMessage o.threadMessages = some resp)
    (hcontent : resp.content ≠ []) :
    (processConversation o envAssistantId messageText convConfig).events =
      [.threadCreate,
        .persistConfig (jsMerge convConfig [("thread_id", o.newThreadId)]),
        .messageAppend o.newThreadId messageText,
        .runCreate o.newThreadId
          (jsOr ((jsMerge convConfig
            [("thread_id", o.newThreadId)]).lookup "assistant_openai_id")
            envAssistantId),
        .persistConfig (jsMerge (jsMerge convConfig
          [("thread_id", o.newThreadId)]) [("run_id", o.newRunId)])]
    ∧ ((processConversation o envAssistantId messageText
        convConfig).events.countP (fun e => e.isThreadCreate)) = 1
    ∧ ((processConversation o envAssistantId messageText
        convConfig).events.countP (fun e => e.isMessageAppend)) = 1
    ∧ ((processConversation o envAssistantId messageText
        convConfig).events.countP (fun e => e.isRunCreate)) = 1
    ∧ ((processConversation o envAssistantId messageText
        convConfig).events.countP (fun e => e.isPersistConfig)) = 2
    ∧ (processConversation o envAssistantId messageText convConfig).config =
        jsMerge (jsMerge convConfig [("thread_id", o.newThreadId)])
          [("run_id", o.newRunId)]
    ∧ waitForRun o.runStatusAt 1000 120000 = .ok (o.runStatusAt n)
    ∧ (processConversation o envAssistantId messageText convConfig).result =
        .ok (some resp)
    ∧ processMessageWithAI o envAssistantId waId conversationId phoneNumberId
        messageText convConfig =
      .ok (sendTextMessage waId (extractText resp) phoneNumberId
        conversationId o.sentWaMessageId).2
    ∧ ((sendTextMessage waId (extractText resp) phoneNumberId conversationId
        o.sentWaMessageId).2).type = "bot_answer"
    ∧ ((sendTextMessage waId (extractText resp) phoneNumberId conversationId
        o.sentWaMessageId).2).status = "sent" := by
  have hwait : waitForRun o.runStatusAt 1000 120000 = .ok (o.runStatusAt n) :=
    waitForRun_first_terminal o.runStatusAt 1000 120000 n (by decide)
      hactive hterm hbudget
  have hfalse : jsTruthyStr (convConfig.lookup "thread_id") = false := by
    rcases hthread with h | h <;> rw [h] <;> rfl
  have key : processConversation o envAssistantId messageText convConfig =
      { result := .ok (some resp)
        config := jsMerge (jsMerge convConfig
          [("thread_id", o.newThreadId)]) [("run_id", o.newRunId)]
        events := [.threadCreate,
          .persistConfig (jsMerge convConfig [("thread_id", o.newThreadId)]),
          .messageAppend o.newThreadId messageText,
          .runCreate o.newThreadId
            (jsOr ((jsMerge convConfig
              [("thread_id", o.newThreadId)]).lookup "assistant_openai_id")
              envAssistantId),
          .persistConfig (jsMerge (jsMerge convConfig
            [("thread_id", o.newThreadId)]) [("run_id", o.newRunId)])] } := by
    unfold processConversation
    rw [hfalse, if_neg Bool.false_ne_true]
    unfold processConversationCore
    rw [hwait, hresp]
    rfl
  have hempty : resp.content.isEmpty = false := by
    cases hc : resp.content with
    | nil => exact absurd hc hcontent
    | cons a t => rfl
  refine ⟨by rw [key], by rw [key]; rfl, by rw [key]; rfl, by rw [key]; rfl,
    by rw [key]; rfl, by rw [key], hwait, by rw [key], ?_, rfl, rfl⟩
  unfold processMessageWithAI
  rw [key]
  show (if resp.content.isEmpty = true then _ else _) = _
  rw [hempty, if_neg Bool.false_ne_true]

/-- Witness for `processConversation_fresh_thread_spec`: a conversation
with an empty config, a run that completes at the first poll, and a thread
whose newest assistant message says hello; the caller records the sent
bot_answer row. -/
theorem processConversation_fresh_thread_spec_witness :
    processMessageWithAI
      { newThreadId := "thread_1", newRunId := "run_1"
        runStatusAt := fun _ => "completed"
        threadMessages := [⟨"assistant", 5, [⟨"text", "hello"⟩]⟩]
        sentWaMessageId := "wamid.9" }
      "assistant_env" "15550001111" "conv1" "phone1" "hi" [] =
      .ok (sendTextMessage "15550001111" "hello" "phone1" "conv1"
        "wamid.9").2 :=
  (processConversation_fresh_thread_spec
    { newThreadId := "thread_1", newRunId := "run_1"
      runStatusAt := fun _ => "completed"
      threadMessages := [⟨"assistant", 5, [⟨"text", "hello"⟩]⟩]
      sentWaMessageId := "wamid.9" }
    "assistant_env" "15550001111" "conv1" "phone1" "hi" []
    (Or.inl rfl) 0 (fun j hj => absurd hj (Nat.not_lt_zero j)) rfl
    (fun j hj => absurd hj (Nat.not_lt_zero j))
    ⟨"assistant", 5, [⟨"text", "hello"⟩]⟩ rfl (by decide)).2.2.2.2.2.2.2.2.1

/-- C4: when the run status stays in the active set at every poll, the
orchestration fails with the timeout error, the conversation config still
holds the run id merged before polling began (the last persisted config is
exactly the final config), no cancellation request is ever issued, and the
caller sends no reply. -/
theorem processConversation_timeout_spec (o : OrchOracle)
    (envAssistantId waId conversationId phoneNumberId messageText : String)
    (convConfig : Config)
    (hactive : ∀ j, activeStatuses.contains (o.runStatusAt j) = true) :
    (processConversation o envAssistantId messageText convConfig).result =
      .error .timeout
    ∧ (processConversation o envAssistantId messageText
        convConfig).config.lookup "run_id" = some o.newRunId
    ∧ (processConversation o envAssistantId messageText
        convConfig).events.getLast? =
      some (.persistConfig (processConversation o envAssistantId messageText
        convConfig).config)
    ∧ ((processConversation o envAssistantId messageText
        convConfig).events.countP (fun e => e.isRunCancel)) = 0
    ∧ processMessageWithAI o envAssistantId waId conversationId phoneNumberId
        messageText convConfig = .error (.orchestration .timeout) := by
  have hwait : waitForRun o.runStatusAt 1000 120000 = .error .timeout :=
    waitForRun_timeout o.runStatusAt 1000 120000 (by decide) hactive
  by_cases ht : jsTruthyStr (convConfig.lookup "thread_id") = true
  · have key : processConversation o envAssistantId messageText convConfig =
        { result := .error .timeout
          config := jsMerge convConfig [("run_id", o.newRunId)]
          events := [.messageAppend ((convConfig.lookup "thread_id").getD "")
              messageText,
            .runCreate ((convConfig.lookup "thread_id").getD "")
              (jsOr (convConfig.lookup "assistant_openai_id") envAssistantId),
            .persistConfig (jsMerge convConfig
              [("run_id", o.newRunId)])] } := by
      unfold processConversation
      rw [if_pos ht]
      unfold processConversationCore
      rw [hwait]
      rfl
    refine ⟨by rw [key], ?_, by rw [key]; rfl, by rw [key]; rfl, ?_⟩
    · rw [key]
      show (jsMerge convConfig [("run_id", o.newRunId)]).lookup "run_id" = _
      rw [jsMerge_lookup]
      rfl
    · unfold processMessageWithAI
      rw [key]
  · have key : processConversation o envAssistantId messageText convConfig =
        { result := .error .timeout
          config := jsMerge (jsMerge convConfig
            [("thread_id", o.newThreadId)]) [("run_id", o.newRunId)]
          events := [.threadCreate,
            .persistConfig (jsMerge convConfig
              [("thread_id", o.newThreadId)]),
            .messageAppend o.newThreadId messageText,
            .runCreate o.newThreadId
              (jsOr ((jsMerge convConfig
                [("thread_id", o.newThreadId)]).lookup "assistant_openai_id")
                envAssistantId),
            .persistConfig (jsMerge (jsMerge convConfig
              [("thread_id", o.newThreadId)])
              [("run_id", o.newRunId)])] } := by
      unfold processConversation
      rw [if_neg ht]
      unfold processConversationCore
      rw [hwait]
      rfl
    refine ⟨by rw [key], ?_, by rw [key]; rfl, by rw [key]; rfl, ?_⟩
    · rw [key]
      show (jsMerge (jsMerge convConfig [("thread_id", o.newThreadId)])
        [("run_id", o.newRunId)]).lookup "run_id" = _
      rw [jsMerge_lookup]
      rfl
    · unfold processMessageWithAI
      rw [key]

/-- Witness for `processConversation_timeout_spec`: a run that reports the
in-progress status at every poll makes the orchestration fail with the
timeout error. -/
theorem processConversation_timeout_spec_witness :
    (processConversation
      { newThreadId := "thread_1", newRunId := "run_1"
        runStatusAt := fun _ => "in_progress", threadMessages := []
        sentWaMessageId := "wamid.9" } "assistant_env" "hi" []).result =
      .error .timeout :=
  (processConversation_timeout_spec
    { newThreadId := "thread_1", newRunId := "run_1"
      runStatusAt := fun _ => "in_progress", threadMessages := []
      sentWaMessageId := "wamid.9" }
    "assistant_env" "15550001111" "conv1" "phone1" "hi" []
    (fun j => rfl)).1

/-- A persisted conversation row (`src/models/Conversation.js`); the UUID is
modelled by a fresh counter value, which also serves as the creation-time
stamp used by the most-recent-first lookup. -/
structure ConversationRow where
  id : String
  wa_id : String
  type : String
  status : String
  config : Config
  created_at : Nat
deriving DecidableEq

/-- The two tables of the relational store, plus the fresh-id counter. -/
structure DbState where
  conversations : List ConversationRow
  messages : List MessageRow
  nextId : Nat
deriving DecidableEq

/-- The descending-by-creation-time order of the SQL
`ORDER BY created_at DESC` clause of `Conversation.findByWaId`. -/
def convByCreatedAtDesc (a b : ConversationRow) : Prop :=
  b.created_at ≤ a.created_at

instance : DecidableRel convByCreatedAtDesc :=
  fun a b => Nat.decLe b.created_at a.created_at

/-- `Conversation.findByWaId`: select the conversations with the given
external contact id, most recent first, limit one. -/
def findConversationByWaId (st : DbState) (waId : String) :
    Option ConversationRow :=
  ((st.conversations.filter (fun c => c.wa_id == waId)).insertionSort
    convByCreatedAtDesc).head?

/-- `databaseService.createConversation` as called from
`handleMessageEvent`: insert a new conversation row with kind
user_initiated, status new and an empty config, and return it. -/
def createConversation (st : DbState) (waId : String) :
    ConversationRow × DbState :=
  ({ id := toString st.nextId, wa_id := waId, type := "user_initiated"
     status := "new", config := [], created_at := st.nextId },
   { st with
      conversations := st.conversations ++
        [{ id := toString st.nextId, wa_id := waId
           type := "user_initiated", status := "new", config := []
           created_at := st.nextId }]
      nextId := st.nextId + 1 })

/-- `databaseService.createMessage`: insert the row built by the `Message`
constructor from the given data object. -/
def createMessage (st : DbState) (data : MessageData) : DbState :=
  { st with messages := st.messages ++ [mkMessage data] }

/-- The type branch of `handleMessageEvent`, applied to the first message of
the event after the conversation has been resolved or created. -/
def handleFirstMessage (mediaOracle : String → Except String MediaRecord)
    (st : DbState) (messageEvent : MessageEvent) (message : WaMessage)
    (conversation : ConversationRow) : Except String DbState :=
  if message.type == "text" then
    match message.text with
    | none => .error "TypeError: cannot read body of undefined"
    | some body =>
      .ok (createMessage st
        { conversation_id := some conversation.id
          type := some "text"
          wa_id := some message.id
          timestamp := some message.timestamp
          replying_to_mesage_id := message.context_id
          business_phone_number_id :=
            messageEvent.metadata.map (fun m => m.phone_number_id)
          whatsapp_webhook_data := some messageEvent
          text := some body
          status := some "received" })
  else if message.type == "image" || message.type == "document" ||
      message.type == "audio" || message.type == "video" then
    match message.mediaId with
    | none => .error "Invalid media data"
    | some mediaId =>
      match mediaOracle mediaId with
      | .error e => .error e
      | .ok mediaInfo =>
        .ok (createMessage st
          { conversation_id := some conversation.id
            type := some message.type
            wa_id := some message.id
            timestamp := some message.timestamp
            replying_to_mesage_id := message.context_id
            business_phone_number_id :=
              messageEvent.metadata.map (fun m => m.phone_number_id)
            whatsapp_webhook_data := some messageEvent
            media := some
              { url := mediaInfo.url
                mime_type := mediaInfo.mime_type
                filename := mediaInfo.filename
                sha256 := mediaInfo.sha256
                filesize := mediaInfo.filesize }
            status := some "received" })
  else if message.type == "location" then
    .ok (createMessage st
      { conversation_id := some conversation.id
        type := some "location"
        wa_id := some message.id
        timestamp := some message.timestamp
        replying_to_mesage_id := message.context_id
        business_phone_number_id :=
          messageEvent.metadata.map (fun m => m.phone_number_id)
        whatsapp_webhook_data := some messageEvent
        location := message.location
        status := some "received" })
  else if message.type == "contacts" then
    .ok (createMessage st
      { conversation_id := some conversation.id
        type := some "contact"
        wa_id := some message.id
        timestamp := some message.timestamp
        replying_to_mesage_id := message.context_id
        business_phone_number_id :=
          messageEvent.metadata.map (fun m => m.phone_number_id)
        whatsapp_webhook_data := some messageEvent
        contact := message.contacts
        status := some "received" })
  else
    .ok st

/-- `WhatsAppService.handleMessageEvent` from `src/services/whatsapp.js`:
on an event with no messages, return silently; otherwise take the first
message only, resolve or create the conversation for its sender, and branch
on the message type — text messages need a text body (reading
`message.text.body` of a missing text object throws), media messages
resolve their media object through the media-info API (`mediaOracle`,
which throws on a missing media object or id), location and contacts
messages store their payloads verbatim, and any other type is logged and
skipped with no row created.  Every created row has status received and
carries the raw event. -/
def handleMessageEvent (mediaOracle : String → Except String MediaRecord)
    (st : DbState) (messageEvent : MessageEvent) : Except String DbState :=
  match messageEvent.messages with
  | none => .ok st
  | some [] => .ok st
  | some (message :: _) =>
    match findConversationByWaId st message.from_ with
    | some conversation =>
      handleFirstMessage mediaOracle st messageEvent message conversation
    | none =>
      handleFirstMessage mediaOracle
        (createConversation st message.from_).2 messageEvent message
        (createConversation st message.from_).1

/-- The inner loop of `WhatsAppService.processWebhook` over the changes of
one entry: changes whose field is messages are handled in order; a thrown
error aborts the remaining changes. -/
def processChanges (mediaOracle : String → Except String MediaRecord)
    (st : DbState) : List Change → Except String DbState
  | [] => .ok st
  | ch :: rest =>
    if ch.field == "messages" then
      match handleMessageEvent mediaOracle st ch.value with
      | .error e => .error e
      | .ok st₂ => processChanges mediaOracle st₂ rest
    else
      processChanges mediaOracle st rest

/-- The outer loop of `WhatsAppService.processWebhook` over the entries. -/
def processEntries (mediaOracle : String → Except String MediaRecord)
    (st : DbState) : List Entry → Except String DbState
  | [] => .ok st
  | e :: rest =>
    match processChanges mediaOracle st e.changes with
    | .error err => .error err
    | .ok st₂ => processEntries mediaOracle st₂ rest

/-- The result `processWebhook` resolves with when it does not throw. -/
structure WebhookResult where
  success : Bool
  state : DbState
deriving DecidableEq

/-- `WhatsAppService.processWebhook`: a missing envelope or entry list is
answered with a structured failure value; otherwise every messages-change of
every entry is handled in order, and the first thrown error propagates. -/
def processWebhook (mediaOracle : String → Except String MediaRecord)
    (st : DbState) (webhookData : Option Envelope) :
    Except String WebhookResult :=
  match webhookData with
  | none => .ok { success := false, state := st }
  | some wd =>
    match wd.entry with
    | none => .ok { success := false, state := st }
    | some entries =>
      match processEntries mediaOracle st entries with
      | .error e => .error e
      | .ok st₂ => .ok { success := true, state := st₂ }

/-- The empty store used by the concrete examples below. -/
def emptyDb : DbState :=
  { conversations := [], messages := [], nextId := 0 }

/-- A webhook event carrying two supported text messages from the same
sender. -/
def twoMessagesEvent : MessageEvent :=
  { messages :=
      some [{ from_ := "15550001111", id := "wamid.A", type := "text",
              timestamp := 1, text := some "first" },
            { from_ := "15550001111", id := "wamid.B", type := "text",
              timestamp := 2, text := some "second" }],
    metadata := some { phone_number_id := "phone1" } }

/-- An envelope whose single entry holds one messages change carrying
`twoMessagesEvent`. -/
def twoMessagesEnvelope : Envelope :=
  { entry :=
      some [{ changes := [{ field := "messages",
                            value := twoMessagesEvent }] }] }

/-- C2 counterexample: a webhook event whose messages change carries two
supported text messages yields exactly one stored row, not two — only the
first message of the list is processed. -/
theorem processWebhook_two_messages_counterexample :
    (processWebhook (fun _ => .error "unused") emptyDb
      (some twoMessagesEnvelope)).map
      (fun r => r.state.messages.length) = .ok 1
    ∧ ((1 : Nat) == 2) = false := by
  exact ⟨rfl, rfl⟩

theorem handleFirstMessage_supported
    (mediaOracle : String → Except String MediaRecord) (st : DbState)
    (messageEvent : MessageEvent) (m : WaMessage)
    (conversation : ConversationRow)
    (hsupported :
      (m.type = "text" ∧ ∃ body, m.text = some body)
      ∨ ((m.type = "image" ∨ m.type = "document" ∨ m.type = "audio" ∨
          m.type = "video") ∧
          ∃ mediaId info, m.mediaId = some mediaId ∧
            mediaOracle mediaId = .ok info)
      ∨ m.type = "location"
      ∨ m.type = "contacts") :
    ∃ st₂, handleFirstMessage mediaOracle st messageEvent m conversation =
        .ok st₂
      ∧ st₂.messages.length = st.messages.length + 1
      ∧ st₂.messages.getLast?.map (fun r => r.status) = some "received" := by
  rcases hsupported with ⟨htype, body, hbody⟩ |
    ⟨htype, mediaId, info, hmid, hoc⟩ | htype | htype
  · unfold handleFirstMessage
    simp [htype, hbody, createMessage, mkMessage, jsOr,
      List.getLast?_concat]
  · rcases htype with htype | htype | htype | htype <;>
    · unfold handleFirstMessage
      simp [htype, hmid, hoc, createMessage, mkMessage, jsOr,
        List.getLast?_concat]
  · unfold handleFirstMessage
    simp [htype, createMessage, mkMessage, jsOr, List.getLast?_concat]
  · unfold handleFirstMessage
    simp [htype, createMessage, mkMessage, jsOr, List.getLast?_concat]

/-- C2 as amended: only the first message of a messages change is examined;
an event whose message list starts with a supported, well-formed message
yields exactly one stored row with status received, however many further
messages the event carries. -/
theorem handleMessageEvent_first_only_spec
    (mediaOracle : String → Except String MediaRecord) (st : DbState)
    (messageEvent : MessageEvent) (m : WaMessage) (rest : List WaMessage)
    (hmsgs : messageEvent.messages = some (m :: rest))
    (hsupported :
      (m.type = "text" ∧ ∃ body, m.text = some body)
      ∨ ((m.type = "image" ∨ m.type = "document" ∨ m.type = "audio" ∨
          m.type = "video") ∧
          ∃ mediaId info, m.mediaId = some mediaId ∧
            mediaOracle mediaId = .ok info)
      ∨ m.type = "location"
      ∨ m.type = "contacts") :
    ∃ st₂, handleMessageEvent mediaOracle st messageEvent = .ok st₂
      ∧ st₂.messages.length = st.messages.length + 1
      ∧ st₂.messages.getLast?.map (fun r => r.status) = some "received" := by
  have hdef : handleMessageEvent mediaOracle st messageEvent =
      match findConversationByWaId st m.from_ with
      | some conversation =>
        handleFirstMessage mediaOracle st messageEvent m conversation
      | none =>
        handleFirstMessage mediaOracle (createConversation st m.from_).2
          messageEvent m (createConversation st m.from_).1 := by
    unfold handleMessageEvent
    rw [hmsgs]
  rw [hdef]
  cases hf : findConversationByWaId st m.from_ with
  | some conversation =>
    exact handleFirstMessage_supported mediaOracle st messageEvent m
      conversation hsupported
  | none =>
    exact handleFirstMessage_supported mediaOracle
      (createConversation st m.from_).2 messageEvent m
      (createConversation st m.from_).1 hsupported

/-- The single supported text message used by the concrete example
below. -/
def oneTextMessage : WaMessage :=
  { from_ := "15550001111", id := "wamid.A", type := "text",
    timestamp := 1, text := some "hi" }

/-- A webhook event carrying exactly `oneTextMessage`. -/
def oneTextEvent : MessageEvent :=
  { messages := some [oneTextMessage], metadata := none }

/-- Witness for `handleMessageEvent_first_only_spec`: a single supported
text message on an empty store yields one received row. -/
theorem handleMessageEvent_first_only_spec_witness :
    ∃ st₂, handleMessageEvent (fun _ => .error "unused") emptyDb
        oneTextEvent = .ok st₂
      ∧ st₂.messages.length = emptyDb.messages.length + 1
      ∧ st₂.messages.getLast?.map (fun r => r.status) = some "received" :=
  handleMessageEvent_first_only_spec (fun _ => .error "unused") emptyDb
    oneTextEvent oneTextMessage [] rfl (Or.inl ⟨rfl, "hi", rfl⟩)

/-- C10: a message event whose messages field is absent or an empty list is
handled without error and leaves the store untouched: no conversation is
created and no message row is written. -/
theorem handleMessageEvent_empty_frame
    (mediaOracle : String → Except String MediaRecord) (st : DbState)
    (messageEvent : MessageEvent)
    (h : messageEvent.messages = none ∨ messageEvent.messages = some []) :
    handleMessageEvent mediaOracle st messageEvent = .ok st := by
  unfold handleMessageEvent
  rcases h with h | h <;> rw [h]

/-- Witness for `handleMessageEvent_empty_frame`: an event with no messages
field leaves a concrete store unchanged. -/
theorem handleMessageEvent_empty_frame_witness :
    handleMessageEvent (fun _ => .error "unused") emptyDb
      { messages := none, metadata := none } = .ok emptyDb :=
  handleMessageEvent_empty_frame (fun _ => .error "unused") emptyDb
    { messages := none, metadata := none } (Or.inl rfl)

theorem processChanges_append
    (mediaOracle : String → Except String MediaRecord) (st : DbState)
    (l₁ l₂ : List Change) :
    processChanges mediaOracle st (l₁ ++ l₂) =
      match processChanges mediaOracle st l₁ with
      | .error e => .error e
      | .ok st₂ => processChanges mediaOracle st₂ l₂ := by
  induction l₁ generalizing st with
  | nil => rfl
  | cons ch rest ih =>
    simp only [List.cons_append, processChanges]
    by_cases hf : (ch.field == "messages") = true
    · rw [if_pos hf, if_pos hf]
      cases hh : handleMessageEvent mediaOracle st ch.value with
      | error e => rfl
      | ok st₂ => exact ih st₂
    · rw [if_neg hf, if_neg hf]
      exact ih st

theorem processEntries_append
    (mediaOracle : String → Except String MediaRecord) (st : DbState)
    (l₁ l₂ : List Entry) :
    processEntries mediaOracle st (l₁ ++ l₂) =
      match processEntries mediaOracle st l₁ with
      | .error e => .error e
      | .ok st₂ => processEntries mediaOracle st₂ l₂ := by
  induction l₁ generalizing st with
  | nil => rfl
  | cons en rest ih =>
    simp only [List.cons_append, processEntries]
    cases hh : processChanges mediaOracle st en.changes with
    | error e => rfl
    | ok st₂ => exact ih st₂

/-- C7: a missing envelope or a missing entry list makes `processWebhook`
resolve with a structured failure value rather than throw; and for every
envelope in which some per-message step of a messages change throws — the
failing change sitting at any position of any entry — the error propagates
to the caller, and neither the remaining changes of that entry nor the
remaining entries of the request are processed: the first error wins. -/
theorem processWebhook_error_policy :
    (∀ (mediaOracle : String → Except String MediaRecord) (st : DbState),
        processWebhook mediaOracle st none =
          .ok { success := false, state := st })
    ∧ (∀ (mediaOracle : String → Except String MediaRecord) (st : DbState)
        (env : Envelope), env.entry = none →
        processWebhook mediaOracle st (some env) =
          .ok { success := false, state := st })
    ∧ (∀ (mediaOracle : String → Except String MediaRecord) (st : DbState)
        (preEntries : List Entry) (st₀ : DbState) (pre : List Change)
        (ch : Change) (rest : List Change) (restEntries : List Entry)
        (st₁ : DbState) (e : String),
        processEntries mediaOracle st preEntries = .ok st₀ →
        processChanges mediaOracle st₀ pre = .ok st₁ →
        ch.field = "messages" →
        handleMessageEvent mediaOracle st₁ ch.value = .error e →
        processWebhook mediaOracle st
          (some { entry := some (preEntries ++
            ({ changes := pre ++ ch :: rest } : Entry) :: restEntries) }) =
          .error e) := by
  refine ⟨fun mediaOracle st => rfl, ?_, ?_⟩
  · intro mediaOracle st env h
    have hdef : processWebhook mediaOracle st (some env) =
        match env.entry with
        | none => .ok { success := false, state := st }
        | some entries =>
          match processEntries mediaOracle st entries with
          | .error e => .error e
          | .ok st₂ => .ok { success := true, state := st₂ } := rfl
    rw [hdef, h]
  · intro mediaOracle st preEntries st₀ pre ch rest restEntries st₁ e
      hpreE hpre hfield herr
    have hch : processChanges mediaOracle st₀ (pre ++ ch :: rest) =
        .error e := by
      rw [processChanges_append, hpre]
      simp only [processChanges]
      rw [if_pos (by simp [hfield]), herr]
    have hent : processEntries mediaOracle st₀
        (({ changes := pre ++ ch :: rest } : Entry) :: restEntries) =
        .error e := by
      have hdef2 : processEntries mediaOracle st₀
          (({ changes := pre ++ ch :: rest } : Entry) :: restEntries) =
          match processChanges mediaOracle st₀ (pre ++ ch :: rest) with
          | .error err => .error err
          | .ok st₂ => processEntries mediaOracle st₂ restEntries := rfl
      rw [hdef2, hch]
    have hfull : processEntries mediaOracle st (preEntries ++
        ({ changes := pre ++ ch :: rest } : Entry) :: restEntries) =
        .error e := by
      rw [processEntries_append, hpreE]
      exact hent
    have hdef : processWebhook mediaOracle st
        (some { entry := some (preEntries ++
          ({ changes := pre ++ ch :: rest } : Entry) :: restEntries) }) =
        match processEntries mediaOracle st (preEntries ++
            ({ changes := pre ++ ch :: rest } : Entry) :: restEntries) with
        | .error e₂ => .error e₂
        | .ok st₂ => .ok { success := true, state := st₂ } := rfl
    rw [hdef, hfull]

/-- An image message whose media object is missing; resolving its media
info throws. -/
def badImageMessage : WaMessage :=
  { from_ := "15550001111", id := "wamid.A", type := "image",
    timestamp := 1 }

/-- The messages change carrying `badImageMessage`. -/
def badImageChange : Change :=
  { field := "messages",
    value := { messages := some [badImageMessage], metadata := none } }

/-- Witness for `processWebhook_error_policy`: in a three-entry envelope
whose middle entry carries an image message with a missing media object,
the whole webhook call fails with the invalid-media error; the change after
the failing one and the whole third entry are never processed. -/
theorem processWebhook_error_policy_witness :
    processWebhook (fun _ => .error "unused") emptyDb
      (some { entry := some [{ changes := [] },
        { changes := [badImageChange, badImageChange] },
        { changes := [badImageChange] }] }) =
      .error "Invalid media data" :=
  processWebhook_error_policy.2.2 (fun _ => .error "unused") emptyDb
    [{ changes := [] }] emptyDb [] badImageChange [badImageChange]
    [{ changes := [badImageChange] }] emptyDb "Invalid media data"
    rfl rfl rfl rfl
